import Mathlib

/-!
Verification development for the `scikits.odes.dae` module: a generic
dispatcher class `dae` over DAE integrator backends, and the `ddaspk`
backend that translates user options into the DDASPK runner's control
arrays (`info`, `rwork`, `iwork`) and classifies the runner's status
codes into a success flag.

The embedding below follows `scikits/odes/dae.py`.  Machine reals are
modelled as rationals (only copies and order comparisons occur in the
embedded code, never rounding arithmetic).  Python exceptions are
modelled as `Except.error`; the external Fortran runner is abstracted
as a `RunOutcome` value (the tuple it returns), since the repository
treats it as an opaque collaborator.
-/

deriving instance DecidableEq for Except

/-- A tolerance option (`atol` / `rtol`): either a scalar or a
per-component sequence, mirroring `numpy.isscalar` dispatch. -/
inductive Tol where
  | scalar (v : ℚ)
  | vector (vs : List ℚ)
deriving DecidableEq

/-- The `constraint_type` option: one integer applied to all unknowns, or a
per-component integer array (`dae.py` lines 551-553). -/
inductive CType where
  | scalar (c : ℤ)
  | vector (cs : List ℤ)
deriving DecidableEq

/-- The `compute_initcond` selector passed to `ddaspk.__init__`:
`None`, the string matching `yprime0`, or the string matching `yode0`
(`dae.py` lines 490-495). -/
inductive ICMode where
  | icNone
  | icYprime0
  | icYode0
deriving DecidableEq

/-- The keyword parameters of `ddaspk.__init__` with their Python
default values (`dae.py` lines 454-468).  `nonneg_type` is accepted by
the Python signature but never read, so it is omitted. -/
structure InitParams where
  rtol : Tol := .scalar (mkRat 1 1000000)
  atol : Tol := .scalar (mkRat 1 1000000000000)
  lband : Option ℕ := none
  uband : Option ℕ := none
  tcrit : Option ℚ := none
  order : ℕ := 5
  nsteps : ℕ := 500
  max_step : ℚ := 0
  first_step : ℚ := 0
  enforce_nonnegativity : Bool := false
  constraint_init : Bool := false
  compute_initcond : ICMode := .icNone
  constraint_type : Option CType := none
  algebraic_var : Option (List ℤ) := none
deriving DecidableEq

/-- The instance state of a `ddaspk` backend object: the attributes
stored by `__init__` plus the control arrays built by `reset`
(empty before the first `reset`). -/
structure Ddaspk where
  rtol : Tol
  atol : Tol
  mu : Option ℕ
  ml : Option ℕ
  tcrit : Option ℚ
  order : ℕ
  nsteps : ℕ
  max_step : ℚ
  first_step : ℚ
  nonneg : ℕ
  constraint_type : Option CType
  compute_initcond : ℕ
  algebraic_var : Option (List ℤ)
  success : Bool
  info : List ℤ
  rwork : List ℚ
  iwork : List ℤ
deriving DecidableEq

/-- The tuple `(y1, y1prime, t, istate)` returned by one invocation of
the external Fortran runner `ddaspk.ddaspk` (`dae.py` line 567). -/
structure RunOutcome where
  y1 : List ℚ
  yprime1 : List ℚ
  t : ℚ
  istate : ℤ
deriving DecidableEq

/-- The dispatcher state of class `dae`: current `(y, yprime, t)`,
whether a Jacobian callable was supplied (`self.jac is not None`), and
the selected backend instance (`self._integrator`), absent on a fresh
object.  `ddaspk` is the sole registered backend in this repository,
so the backend slot holds a `Ddaspk`. -/
structure Dae where
  y : List ℚ
  yprime : List ℚ
  t : ℚ
  jacPresent : Bool
  integrator : Option Ddaspk
deriving DecidableEq

/-- Predicate `numpy.isscalar` applied to a tolerance option. -/
def isScalarTol : Tol → Bool
  | .scalar _ => true
  | .vector _ => false

/-- The failure condition of the tolerance-shape test at the top of
`ddaspk.reset` (`dae.py` lines 506-507): `atol` and `rtol` differ in
scalar-ness, or are sequences of different lengths. -/
def tolMismatch : Tol → Tol → Bool
  | .scalar _, .scalar _ => false
  | .vector a, .vector r => a.length ≠ r.length
  | _, _ => true

/-- Extract the payload of a successful `Except`, with a fallback. -/
def okD (e : Except String Ddaspk) (d : Ddaspk) : Ddaspk :=
  match e with
  | .ok x => x
  | .error _ => d

/-- Whether an `Except` is a success (no exception was raised). -/
def isOkE {α : Type} (e : Except String α) : Bool :=
  match e with
  | .ok _ => true
  | .error _ => false

/-- Write the values `vs` into `l` starting at index `i`, one slot per
element — the semantics of the numpy slice assignments
`iwork[40:lid] = ...` and `iwork[lid:lid+n] = ...` in `reset`. -/
def setSeq : List ℤ → ℕ → List ℤ → List ℤ
  | l, _, [] => l
  | l, i, v :: vs => setSeq (l.set i v) (i + 1) vs

/-- The real-work-array length `lrw` computed by `ddaspk.reset`
(`dae.py` lines 518-522): a base of `50 + max(order+4,7)*n` plus a
dense term `n^2` when no bandwidths were given (`info[5]==0`), else a
banded term that also pays `2*(n/(ml+mu+1)+1)` when no user Jacobian
is supplied (`info[4]==0`).  Python 2 `/` on ints is floor division,
i.e. `Nat.div` here. -/
def lrwOf (order n : ℕ) (banded has_jac : Bool) (ml mu : ℕ) : ℕ :=
  50 + max (order + 4) 7 * n +
    (if banded = false then n ^ 2
     else if has_jac = false then
       (2 * ml + mu + 1) * n + 2 * (n / (ml + mu + 1) + 1)
     else (2 * ml + mu + 1) * n)

/-- The integer-work-array length `liw` computed by `ddaspk.reset`
(`dae.py` lines 524-526): `40 + n`, plus `n` when the nonnegativity
mode is 1 or 3 (init-constraint checking), plus `n` when
`compute_initcond` is truthy (nonzero). -/
def liwOf (n nonneg ci : ℕ) : ℕ :=
  40 + n + (if nonneg = 1 ∨ nonneg = 3 then n else 0) +
    (if ci = 0 then 0 else n)

/-- The four-way nonnegativity mode derived from the two booleans
`enforce_nonnegativity` and `constraint_init`
(`dae.py` lines 482-485). -/
def nonnegOf (p : InitParams) : ℕ :=
  if p.enforce_nonnegativity && p.constraint_init then 3
  else if p.enforce_nonnegativity then 2
  else if p.constraint_init then 1
  else 0

/-- The internal `compute_initcond` code: 0 for `None`, 2 for
`yprime0`, 1 for `yode0` (`dae.py` lines 490-493). -/
def ciOf (p : InitParams) : ℕ :=
  match p.compute_initcond with
  | .icNone => 0
  | .icYprime0 => 2
  | .icYode0 => 1

/-- The backend state a non-raising `ddaspk.__init__` stores. -/
def initOk (p : InitParams) : Ddaspk :=
  { rtol := p.rtol, atol := p.atol, mu := p.uband, ml := p.lband,
    tcrit := p.tcrit, order := p.order, nsteps := p.nsteps,
    max_step := p.max_step, first_step := p.first_step,
    nonneg := nonnegOf p, constraint_type := p.constraint_type,
    compute_initcond := ciOf p, algebraic_var := p.algebraic_var,
    success := true, info := [], rwork := [], iwork := [] }

/-- Constructor `ddaspk.__init__` (`dae.py` lines 454-501): store the options,
derive the four-way nonnegativity mode from the two booleans, parse
`compute_initcond` into the internal code 0/2/1, and validate `order`,
`constraint_type`, and the mode-1 `algebraic_var` requirement.  Note
the tolerances are stored unvalidated, and only init-condition mode 1
(`yode0`) requires `algebraic_var` here. -/
def ddaspk_init (p : InitParams) : Except String Ddaspk :=
  if 5 < p.order ∨ p.order < 1 then
    .error "order should be >=1, <=5"
  else if (nonnegOf p = 1 ∨ nonnegOf p = 3) ∧ p.constraint_type = none then
    .error "Give type of init cond contraint as an int array or as int"
  else if ciOf p = 1 ∧ p.algebraic_var = none then
    .error "Give integer array indicating which are the algebraic variables"
  else
    .ok (initOk p)

/-- The state produced by a non-raising pass through `ddaspk.reset`
(`dae.py` lines 503-563): normalise the bandwidths (if either is
given, the other defaults to 0 and `info[5]` is set), size and zero
the work arrays, and populate the flag vector and the array slots the
active options require. -/
def Ddaspk.resetOk (s : Ddaspk) (n : ℕ) (has_jac : Bool) : Ddaspk :=
  let banded := s.ml.isSome || s.mu.isSome
  let mlv := s.ml.getD 0
  let muv := s.mu.getD 0
  let lrw := lrwOf s.order n banded has_jac mlv muv
  let liw := liwOf n s.nonneg s.compute_initcond
  let lid := if s.nonneg = 1 ∨ s.nonneg = 3 then 40 + n else 40
  let info : List ℤ :=
    let i : List ℤ := List.replicate 20 0
    let i := if isScalarTol s.atol then i else i.set 1 1
    let i := if has_jac then i.set 4 1 else i
    let i := if banded then i.set 5 1 else i
    let i := if s.tcrit.isSome then i.set 3 1 else i
    let i := if 0 < s.max_step then i.set 6 1 else i
    let i := if 0 < s.first_step then i.set 7 1 else i
    let i := if s.order < 5 then i.set 8 1 else i
    (i.set 9 (s.nonneg : ℤ)).set 10 (s.compute_initcond : ℤ)
  let rwork : List ℚ :=
    let r : List ℚ := List.replicate lrw 0
    let r := match s.tcrit with
      | some tc => r.set 0 tc
      | none => r
    let r := if 0 < s.max_step then r.set 1 s.max_step else r
    if 0 < s.first_step then r.set 2 s.first_step else r
  let iwork : List ℤ :=
    let w : List ℤ := List.replicate liw 0
    let w := if banded then (w.set 0 (mlv : ℤ)).set 1 (muv : ℤ) else w
    let w := if s.order < 5 then w.set 2 (s.order : ℤ) else w
    let w := (w.set 5 (s.nsteps : ℤ)).set 6 2
    let w := if s.nonneg = 1 ∨ s.nonneg = 3 then
        match s.constraint_type with
        | some (.scalar c) => setSeq w 40 (List.replicate (lid - 40) c)
        | some (.vector cs) => setSeq w 40 cs
        | none => w
      else w
    if s.compute_initcond = 1 ∨ s.compute_initcond = 2 then
      match s.algebraic_var with
      | some av => setSeq w lid av
      | none => w
    else w
  { s with ml := if banded then some mlv else none,
           mu := if banded then some muv else none,
           info := info, rwork := rwork, iwork := iwork,
           success := true }

/-- Method `ddaspk.reset(n, has_jac)`: raise `ValueError` on mismatched
tolerance shapes (`dae.py` lines 506-509); raise `TypeError` when the
slice assignments would subscript a `None` `constraint_type`
(lines 551-553) or `None` `algebraic_var` (lines 555-556); otherwise
rebuild all control arrays and set the success flag. -/
def Ddaspk.reset (s : Ddaspk) (n : ℕ) (has_jac : Bool) : Except String Ddaspk :=
  if tolMismatch s.atol s.rtol then
    .error "atol and rtol must be both scalar or both arrays of the same length"
  else if (s.nonneg = 1 ∨ s.nonneg = 3) ∧ s.constraint_type = none then
    .error "TypeError: NoneType constraint vector is unsubscriptable"
  else if (s.compute_initcond = 1 ∨ s.compute_initcond = 2) ∧ s.algebraic_var = none then
    .error "TypeError: NoneType algebraic-var vector is unsubscriptable"
  else
    .ok (Ddaspk.resetOk s n has_jac)

/-- Method `ddaspk._run(states, ...)` (`dae.py` lines 565-577): invoke the
runner (here: receive its returned tuple), set the success flag to
false when `istate` is negative or not in the acceptable set, and pass
the returned `(y1, y1prime, t)` through unconditionally. -/
def Ddaspk.runAux (s : Ddaspk) (states : List ℤ) (out : RunOutcome) :
    Ddaspk × RunOutcome :=
  if out.istate < 0 then ({ s with success := false }, out)
  else if out.istate ∈ states then (s, out)
  else ({ s with success := false }, out)

/-- Method `ddaspk.run`: classify against the acceptable set `[2, 3]`
(`dae.py` lines 579-580). -/
def Ddaspk.run (s : Ddaspk) (out : RunOutcome) : Ddaspk × RunOutcome :=
  Ddaspk.runAux s [2, 3] out

/-- Method `ddaspk.step`: transiently set `info[2] = 1`, classify against the
acceptable set `[1, 2]`, then restore `info[2] = 0`
(`dae.py` lines 582-586). -/
def Ddaspk.step (s : Ddaspk) (out : RunOutcome) : Ddaspk × RunOutcome :=
  let s1 := { s with info := s.info.set 2 1 }
  let p := Ddaspk.runAux s1 [1, 2] out
  ({ p.1 with info := p.1.info.set 2 0 }, p.2)

/-- Class attribute `ddaspk.supports_step = 1` (`dae.py` line 452). -/
def Ddaspk.supports_step : Bool := true

/-- Class attribute `ddaspk.supports_run_relax = 0` (`dae.py` line 451). -/
def Ddaspk.supports_run_relax : Bool := false

/-- The three backend operations `dae.solve` can dispatch to. -/
inductive SolveMeth where
  | stepM
  | runRelaxM
  | runM
deriving DecidableEq

/-- The method-selection logic at the top of `dae.solve`
(`dae.py` lines 335-340): `step` when requested and supported, else
`run_relax` when requested and supported, else plain `run`. -/
def selectMeth (sStep sRelax stepArg relaxArg : Bool) : SolveMeth :=
  if stepArg && sStep then .stepM
  else if relaxArg && sRelax then .runRelaxM
  else .runM

/-- Method `dae.set_integrator(name, **params)` (`dae.py` lines 306-326) with
the name resolved to the sole registered backend `ddaspk`: construct a
fresh backend instance from `params`, and if `y` is still empty,
initialise `t = 0.0` and `y = [0.0]` (note: `yprime` is not touched). -/
def Dae.set_integrator (d : Dae) (p : InitParams) : Except String Dae :=
  match ddaspk_init p with
  | .error e => .error e
  | .ok i =>
    let d1 := { d with integrator := some i }
    if d1.y.length = 0 then .ok { d1 with t := 0, y := [0] } else .ok d1

/-- Constructor `ddaspk.__init__` with all keyword defaults, as used by the
default selection `set_integrator('')`. -/
def defaultParams : InitParams := {}

/-- Method `dae.set_initial_value(y, yprime, t)` (`dae.py` lines 291-304):
select the default integrator if `y` was empty, store `y`, `yprime`,
`t`, and call `reset(len(y), jac is not None)`.  Scalar inputs arrive
here already promoted to the singleton lists Python wraps them in. -/
def Dae.set_initial_value (d : Dae) (y yprime : List ℚ) (t : ℚ) :
    Except String Dae :=
  match (if d.y.length = 0 then Dae.set_integrator d defaultParams
         else .ok d) with
  | .error e => .error e
  | .ok d1 =>
    match d1.integrator with
    | none => .error "AttributeError: dae instance has no integrator"
    | some i =>
      match Ddaspk.reset i y.length d1.jacPresent with
      | .error e => .error e
      | .ok i2 =>
        .ok { d1 with y := y, yprime := yprime, t := t,
                      integrator := some i2 }

/-- Method `dae.solve(t, step, relax)` (`dae.py` lines 328-344): select the
backend method from the capability flags, invoke it, and overwrite
`(y, yprime, t)` with whatever it returns.  The base-class
`run_relax` raises `NotImplementedError`; the runner invocation is
abstracted by `out`.  `t1` is the requested end time handed to the
runner (unused once the runner is abstracted). -/
def Dae.solve (d : Dae) (t1 : ℚ) (out : RunOutcome)
    (stepArg relaxArg : Bool) : Except String Dae :=
  match d.integrator with
  | none => .error "AttributeError: dae instance has no integrator"
  | some i =>
    match selectMeth Ddaspk.supports_step Ddaspk.supports_run_relax
        stepArg relaxArg with
    | .stepM =>
      let p := Ddaspk.step i out
      .ok { d with y := p.2.y1, yprime := p.2.yprime1, t := p.2.t,
                   integrator := some p.1 }
    | .runRelaxM =>
      .error "NotImplementedError: ddaspk does not support run_relax"
    | .runM =>
      let p := Ddaspk.run i out
      .ok { d with y := p.2.y1, yprime := p.2.yprime1, t := p.2.t,
                   integrator := some p.1 }

/-- Method `dae.successful()` (`dae.py` lines 346-350): if no integrator was
ever selected, select the default one first; return whether its
success flag equals 1. -/
def Dae.successful (d : Dae) : Bool :=
  match d.integrator with
  | some i => i.success
  | none =>
    match ddaspk_init defaultParams with
    | .ok i => i.success
    | .error _ => false

/-- A concrete dense-Jacobian backend state used by witnesses. -/
def ddaspk0 : Ddaspk :=
  { rtol := .scalar 1, atol := .scalar 1, mu := none, ml := none,
    tcrit := none, order := 5, nsteps := 500, max_step := 0,
    first_step := 0, nonneg := 0, constraint_type := none,
    compute_initcond := 0, algebraic_var := none, success := true,
    info := List.replicate 20 0, rwork := [], iwork := [] }

/-- A runner outcome reporting `istate = 2` (reached TSTOP exactly). -/
def outIstate2 : RunOutcome :=
  { y1 := [1], yprime1 := [0], t := 1, istate := 2 }

/-- A dispatcher with the concrete backend selected and a length-1
problem loaded. -/
def daeReady : Dae :=
  { y := [1], yprime := [0], t := 0, jacPresent := false,
    integrator := some ddaspk0 }

/-- A runner outcome reporting the fatal `istate = -8`
(singular matrix of partial derivatives). -/
def outNeg : RunOutcome :=
  { y1 := [5], yprime1 := [6], t := 2, istate := -8 }

/-- Construction parameters with mismatched tolerance shapes:
a per-component `atol` against a scalar `rtol`. -/
def pMismatch : InitParams := { rtol := .scalar 1, atol := .vector [1, 1] }

/-- The backend state `ddaspk.__init__` produces from `pMismatch`. -/
def ddaspkMismatch : Ddaspk :=
  { rtol := .scalar 1, atol := .vector [1, 1], mu := none, ml := none,
    tcrit := none, order := 5, nsteps := 500, max_step := 0,
    first_step := 0, nonneg := 0, constraint_type := none,
    compute_initcond := 0, algebraic_var := none, success := true,
    info := [], rwork := [], iwork := [] }

/-- A freshly constructed dispatcher `dae(res)`: empty `y` and
`yprime`, no integrator selected. -/
def daeFresh : Dae :=
  { y := [], yprime := [], t := 0, jacPresent := false,
    integrator := none }

/-- A backend state whose stored tolerances are per-component vectors
of length 2 (equal lengths, so the only check in `reset` passes). -/
def ddaspkTolLen2 : Ddaspk :=
  { ddaspk0 with atol := .vector [1, 1], rtol := .vector [2, 2] }

/-- Construction parameters selecting init-condition mode 2
(`compute_initcond = yprime0`) while leaving `algebraic_var = None`. -/
def pYprime0 : InitParams := { compute_initcond := .icYprime0 }

/-- Construction parameters selecting init-condition mode 1
(`compute_initcond = yode0`) while leaving `algebraic_var = None`. -/
def pYode0 : InitParams := { compute_initcond := .icYode0 }

/-- Banded configuration `lband = 0, uband = 0`, no user Jacobian. -/
def ddaspkBand0 : Ddaspk := { ddaspk0 with ml := some 0, mu := some 0 }

/-- Banded configuration `lband = 0, uband = 1`, no user Jacobian. -/
def ddaspkBand1 : Ddaspk := { ddaspk0 with ml := some 0, mu := some 1 }

theorem setSeq_length (vs : List ℤ) : ∀ (l : List ℤ) (i : ℕ),
    (setSeq l i vs).length = l.length := by
  induction vs with
  | nil => intro l i; rfl
  | cons v vs ih => intro l i; simp [setSeq, ih, List.length_set]

theorem resetOk_rwork_length (s : Ddaspk) (n : ℕ) (j : Bool) :
    (Ddaspk.resetOk s n j).rwork.length =
      lrwOf s.order n (s.ml.isSome || s.mu.isSome) j (s.ml.getD 0) (s.mu.getD 0) := by
  unfold Ddaspk.resetOk
  dsimp only
  cases s.tcrit <;> split_ifs <;> simp [List.length_set]

theorem resetOk_iwork_length (s : Ddaspk) (n : ℕ) (j : Bool) :
    (Ddaspk.resetOk s n j).iwork.length =
      liwOf n s.nonneg s.compute_initcond := by
  unfold Ddaspk.resetOk
  dsimp only
  rcases hct : s.constraint_type with _ | ct <;>
    rcases hav : s.algebraic_var with _ | av <;>
    [skip; skip; rcases ct with c | cs; rcases ct with c | cs] <;>
    simp only [hct, hav] <;>
    split_ifs <;>
    simp [List.length_set, setSeq_length]

theorem reset_ok_elim (s : Ddaspk) (n : ℕ) (j : Bool) (s2 : Ddaspk)
    (h : Ddaspk.reset s n j = .ok s2) :
    tolMismatch s.atol s.rtol = false ∧
    ¬((s.nonneg = 1 ∨ s.nonneg = 3) ∧ s.constraint_type = none) ∧
    ¬((s.compute_initcond = 1 ∨ s.compute_initcond = 2) ∧ s.algebraic_var = none) ∧
    s2 = Ddaspk.resetOk s n j := by
  unfold Ddaspk.reset at h
  split_ifs at h with h1 h2 h3
  simp only [Except.ok.injEq] at h
  exact ⟨by simpa using h1, h2, h3, h.symm⟩

theorem resetOk_atol (s : Ddaspk) (n : ℕ) (j : Bool) :
    (Ddaspk.resetOk s n j).atol = s.atol := rfl

theorem resetOk_rtol (s : Ddaspk) (n : ℕ) (j : Bool) :
    (Ddaspk.resetOk s n j).rtol = s.rtol := rfl

theorem resetOk_nonneg (s : Ddaspk) (n : ℕ) (j : Bool) :
    (Ddaspk.resetOk s n j).nonneg = s.nonneg := rfl

theorem resetOk_ct (s : Ddaspk) (n : ℕ) (j : Bool) :
    (Ddaspk.resetOk s n j).constraint_type = s.constraint_type := rfl

theorem resetOk_ci (s : Ddaspk) (n : ℕ) (j : Bool) :
    (Ddaspk.resetOk s n j).compute_initcond = s.compute_initcond := rfl

theorem resetOk_av (s : Ddaspk) (n : ℕ) (j : Bool) :
    (Ddaspk.resetOk s n j).algebraic_var = s.algebraic_var := rfl

theorem resetOk_success (s : Ddaspk) (n : ℕ) (j : Bool) :
    (Ddaspk.resetOk s n j).success = true := rfl

theorem resetOk_order (s : Ddaspk) (n : ℕ) (j : Bool) :
    (Ddaspk.resetOk s n j).order = s.order := rfl

/-- C1: lengths of the work arrays built by `reset`. -/
theorem reset_work_array_lengths (s : Ddaspk) (n : ℕ) (has_jac : Bool)
    (s2 : Ddaspk) (hn : 1 ≤ n) (h : Ddaspk.reset s n has_jac = .ok s2) :
    s2.rwork.length = 50 + max (s.order + 4) 7 * n +
      (if s.ml = none ∧ s.mu = none then n ^ 2
       else if has_jac = false then
         (2 * s.ml.getD 0 + s.mu.getD 0 + 1) * n +
           2 * (n / (s.ml.getD 0 + s.mu.getD 0 + 1) + 1)
       else (2 * s.ml.getD 0 + s.mu.getD 0 + 1) * n) ∧
    s2.iwork.length = 40 + n +
      (if s.nonneg = 1 ∨ s.nonneg = 3 then n else 0) +
      (if s.compute_initcond = 0 then 0 else n) := by
  obtain ⟨-, -, -, rfl⟩ := reset_ok_elim s n has_jac s2 h
  rw [resetOk_rwork_length, resetOk_iwork_length]
  constructor
  · unfold lrwOf
    rcases hml : s.ml with _ | a <;> rcases hmu : s.mu with _ | b <;> simp
  · rfl

theorem reset_work_array_lengths_witness :
    (1 ≤ 2 ∧ Ddaspk.reset ddaspk0 2 false = .ok (okD (Ddaspk.reset ddaspk0 2 false) ddaspk0)) ∧
    ((okD (Ddaspk.reset ddaspk0 2 false) ddaspk0).rwork.length = 50 + max (ddaspk0.order + 4) 7 * 2 +
      (if ddaspk0.ml = none ∧ ddaspk0.mu = none then 2 ^ 2
       else if false = false then
         (2 * ddaspk0.ml.getD 0 + ddaspk0.mu.getD 0 + 1) * 2 +
           2 * (2 / (ddaspk0.ml.getD 0 + ddaspk0.mu.getD 0 + 1) + 1)
       else (2 * ddaspk0.ml.getD 0 + ddaspk0.mu.getD 0 + 1) * 2) ∧
     (okD (Ddaspk.reset ddaspk0 2 false) ddaspk0).iwork.length = 40 + 2 +
      (if ddaspk0.nonneg = 1 ∨ ddaspk0.nonneg = 3 then 2 else 0) +
      (if ddaspk0.compute_initcond = 0 then 0 else 2)) :=
  ⟨⟨by decide, by decide⟩,
   reset_work_array_lengths ddaspk0 2 false _ (by decide) (by decide)⟩

theorem resetOk_resetOk (s : Ddaspk) (n : ℕ) (j : Bool) :
    Ddaspk.resetOk (Ddaspk.resetOk s n j) n j = Ddaspk.resetOk s n j := by
  rcases hml : s.ml with _ | a <;> rcases hmu : s.mu with _ | b <;>
    simp [Ddaspk.resetOk, hml, hmu]

/-- C8: a successful `reset` leaves the success flag true, and an
immediately repeated `reset` with the same arguments succeeds and
reproduces the state — in particular identical `info`, `rwork`,
`iwork` arrays. -/
theorem reset_idempotent (s : Ddaspk) (n : ℕ) (j : Bool) (s2 : Ddaspk)
    (h : Ddaspk.reset s n j = .ok s2) :
    s2.success = true ∧ Ddaspk.reset s2 n j = .ok s2 := by
  obtain ⟨h1, h2, h3, rfl⟩ := reset_ok_elim s n j s2 h
  refine ⟨resetOk_success s n j, ?_⟩
  unfold Ddaspk.reset
  rw [resetOk_atol, resetOk_rtol, resetOk_nonneg, resetOk_ct, resetOk_ci,
    resetOk_av, h1]
  simp only [if_neg h2, if_neg h3, resetOk_resetOk, Bool.false_eq_true,
    if_false]

theorem reset_idempotent_witness :
    Ddaspk.reset ddaspk0 2 false = .ok (okD (Ddaspk.reset ddaspk0 2 false) ddaspk0) ∧
    ((okD (Ddaspk.reset ddaspk0 2 false) ddaspk0).success = true ∧
     Ddaspk.reset (okD (Ddaspk.reset ddaspk0 2 false) ddaspk0) 2 false =
       .ok (okD (Ddaspk.reset ddaspk0 2 false) ddaspk0)) :=
  ⟨by decide, reset_idempotent ddaspk0 2 false _ (by decide)⟩

/-- C2 counterexample: on a backend whose success flag is already
false (a previous call failed, no reset since), `run` returning the
acceptable `istate = 2` leaves the flag false, so "success iff
`istate` in the acceptable set" is violated. -/
theorem run_success_iff_counterexample :
    ¬ (((Ddaspk.run { ddaspk0 with success := false } outIstate2).1.success = true) ↔
        (outIstate2.istate = 2 ∨ outIstate2.istate = 3)) := by
  decide

/-- C2 amended: provided the success flag was true before the call
(as after any `reset`), `run` leaves it true iff the status is in
`run`'s acceptable set `[2,3]`, and `step` iff in `step`'s set
`[1,2]`; moreover any status outside the set — non-negative or
negative — forces the flag false, and no exception is raised (the
classification is total). -/
theorem run_step_success_amended (s : Ddaspk) (out : RunOutcome)
    (h : s.success = true) :
    (((Ddaspk.run s out).1.success = true) ↔
      (out.istate = 2 ∨ out.istate = 3)) ∧
    (((Ddaspk.step s out).1.success = true) ↔
      (out.istate = 1 ∨ out.istate = 2)) ∧
    (¬(out.istate = 2 ∨ out.istate = 3) →
      (Ddaspk.run s out).1.success = false) ∧
    (¬(out.istate = 1 ∨ out.istate = 2) →
      (Ddaspk.step s out).1.success = false) := by
  unfold Ddaspk.run Ddaspk.step Ddaspk.runAux
  dsimp only
  split_ifs with h1 h2 h3 h4 <;>
    simp_all [List.mem_cons, List.mem_singleton] <;> omega

theorem run_step_success_amended_witness :
    ddaspk0.success = true ∧
    ((((Ddaspk.run ddaspk0 outIstate2).1.success = true) ↔
       (outIstate2.istate = 2 ∨ outIstate2.istate = 3)) ∧
     (((Ddaspk.step ddaspk0 outIstate2).1.success = true) ↔
       (outIstate2.istate = 1 ∨ outIstate2.istate = 2)) ∧
     (¬(outIstate2.istate = 2 ∨ outIstate2.istate = 3) →
       (Ddaspk.run ddaspk0 outIstate2).1.success = false) ∧
     (¬(outIstate2.istate = 1 ∨ outIstate2.istate = 2) →
       (Ddaspk.step ddaspk0 outIstate2).1.success = false)) :=
  ⟨by decide, run_step_success_amended ddaspk0 outIstate2 (by decide)⟩

/-- C3: when the runner reports a negative status, `solve` still
overwrites the dispatcher's `(y, yprime, t)` with the runner's
returned values, and `successful()` is false afterwards. -/
theorem negative_istate_updates_state (d : Dae) (t1 : ℚ)
    (out : RunOutcome) (stepArg relaxArg : Bool) (d2 : Dae)
    (hneg : out.istate < 0)
    (h : Dae.solve d t1 out stepArg relaxArg = .ok d2) :
    d2.y = out.y1 ∧ d2.yprime = out.yprime1 ∧ d2.t = out.t ∧
    d2.successful = false := by
  unfold Dae.solve at h
  rcases hi : d.integrator with _ | i <;> rw [hi] at h
  · exact absurd h (by simp)
  · rcases hm : selectMeth Ddaspk.supports_step Ddaspk.supports_run_relax
        stepArg relaxArg with _ | _ | _ <;> rw [hm] at h <;>
      simp only [Except.ok.injEq] at h
    · subst h
      unfold Ddaspk.step Ddaspk.runAux Dae.successful
      simp [if_pos hneg]
    · exact absurd h (by simp)
    · subst h
      unfold Ddaspk.run Ddaspk.runAux Dae.successful
      simp [if_pos hneg]

theorem negative_istate_updates_state_witness :
    (outNeg.istate < 0 ∧
     Dae.solve daeReady 3 outNeg false false =
       .ok (match Dae.solve daeReady 3 outNeg false false with
            | .ok d => d
            | .error _ => daeReady)) ∧
    ((match Dae.solve daeReady 3 outNeg false false with
      | .ok d => d
      | .error _ => daeReady).y = outNeg.y1 ∧
     (match Dae.solve daeReady 3 outNeg false false with
      | .ok d => d
      | .error _ => daeReady).yprime = outNeg.yprime1 ∧
     (match Dae.solve daeReady 3 outNeg false false with
      | .ok d => d
      | .error _ => daeReady).t = outNeg.t ∧
     (match Dae.solve daeReady 3 outNeg false false with
      | .ok d => d
      | .error _ => daeReady).successful = false) :=
  ⟨⟨by decide, by decide⟩,
   negative_istate_updates_state daeReady 3 outNeg false false _
     (by decide) (by decide)⟩

/-- C7: `solve` prefers `step` over `relax` over plain `run`, each
gated by the backend capability flag; since `ddaspk` advertises
`supports_run_relax = 0`, requesting relax yields a call identical to
a plain `run` request, raising no error when a backend is selected. -/
theorem solve_method_selection (sStep sRelax stepArg relaxArg : Bool)
    (d : Dae) (t1 : ℚ) (out : RunOutcome) :
    (stepArg = true → sStep = true →
      selectMeth sStep sRelax stepArg relaxArg = .stepM) ∧
    (¬(stepArg = true ∧ sStep = true) → relaxArg = true → sRelax = true →
      selectMeth sStep sRelax stepArg relaxArg = .runRelaxM) ∧
    (¬(stepArg = true ∧ sStep = true) → ¬(relaxArg = true ∧ sRelax = true) →
      selectMeth sStep sRelax stepArg relaxArg = .runM) ∧
    Ddaspk.supports_run_relax = false ∧
    Dae.solve d t1 out false true = Dae.solve d t1 out false false ∧
    (d.integrator.isSome = true →
      isOkE (Dae.solve d t1 out false true) = true) := by
  refine ⟨?_, ?_, ?_, rfl, rfl, ?_⟩
  · intro h1 h2; simp [selectMeth, h1, h2]
  · intro h1 h2 h3; rcases stepArg <;> rcases sStep <;>
      simp_all [selectMeth]
  · intro h1 h2; rcases stepArg <;> rcases sStep <;>
      rcases relaxArg <;> rcases sRelax <;> simp_all [selectMeth]
  · intro hi
    rcases h : d.integrator with _ | i
    · rw [h] at hi; exact absurd hi (by simp)
    · simp [Dae.solve, h, selectMeth, Ddaspk.supports_step,
        Ddaspk.supports_run_relax, isOkE]

theorem solve_method_selection_witness :
    selectMeth true false true false = SolveMeth.stepM ∧
    selectMeth true false false true = SolveMeth.runM ∧
    daeReady.integrator.isSome = true ∧
    isOkE (Dae.solve daeReady 3 outIstate2 false true) = true :=
  ⟨(solve_method_selection true false true false daeReady 3 outIstate2).1
      rfl rfl,
   (solve_method_selection true false false true daeReady 3 outIstate2).2.2.1
      (by simp) (by simp),
   by decide,
   (solve_method_selection true false false true daeReady 3
      outIstate2).2.2.2.2.2 (by decide)⟩

/-- C5 counterexample: constructing the backend with mismatched
`atol`/`rtol` raises nothing — it returns a backend state — so the
configuration error is not raised at construction time. -/
theorem mismatched_tol_construction_counterexample :
    ddaspk_init pMismatch = .ok ddaspkMismatch := by decide

theorem init_ok_tols (p : InitParams) (s : Ddaspk)
    (h : ddaspk_init p = .ok s) : s.atol = p.atol ∧ s.rtol = p.rtol := by
  unfold ddaspk_init at h
  split_ifs at h
  simp only [Except.ok.injEq] at h
  subst h
  exact ⟨rfl, rfl⟩

/-- C5 amended: a mismatched `atol`/`rtol` pair passes construction
untouched, and the configuration error is raised at the first
`reset` call instead. -/
theorem mismatched_tol_error_at_reset (p : InitParams) (s : Ddaspk)
    (n : ℕ) (j : Bool)
    (hmm : tolMismatch p.atol p.rtol = true)
    (h : ddaspk_init p = .ok s) :
    Ddaspk.reset s n j =
      .error "atol and rtol must be both scalar or both arrays of the same length" := by
  obtain ⟨ha, hr⟩ := init_ok_tols p s h
  unfold Ddaspk.reset
  rw [ha, hr, hmm]
  simp

theorem mismatched_tol_error_at_reset_witness :
    (tolMismatch pMismatch.atol pMismatch.rtol = true ∧
     ddaspk_init pMismatch = .ok ddaspkMismatch) ∧
    Ddaspk.reset ddaspkMismatch 2 false =
      .error "atol and rtol must be both scalar or both arrays of the same length" :=
  ⟨⟨by decide, by decide⟩,
   mismatched_tol_error_at_reset pMismatch ddaspkMismatch 2 false
     (by decide) (by decide)⟩

theorem runAux_snd (s : Ddaspk) (states : List ℤ) (out : RunOutcome) :
    (Ddaspk.runAux s states out).2 = out := by
  unfold Ddaspk.runAux
  split_ifs <;> rfl

theorem run_snd (s : Ddaspk) (out : RunOutcome) :
    (Ddaspk.run s out).2 = out := runAux_snd s [2, 3] out

theorem step_snd (s : Ddaspk) (out : RunOutcome) :
    (Ddaspk.step s out).2 = out := runAux_snd _ [1, 2] out

/-- C6 counterexample: `set_integrator` on a fresh dispatcher selects
a backend and sets `y = [0.0]` but never touches `yprime`, so
immediately after this public operation a backend instance exists
while `len(y) = 1 ≠ 0 = len(yprime)`. -/
theorem length_invariant_counterexample :
    (Dae.set_integrator daeFresh defaultParams).map
        (fun d => (d.y.length, d.yprime.length, d.integrator.isSome)) =
      .ok (1, 0, true) := by decide

/-- C6 amended: the invariant `len(y) = len(yprime)` holds after
`set_initial_value` exactly when the caller passes equal-length
vectors (nothing validates it), and `solve` preserves it whenever the
runner returns equal-length vectors; but `set_integrator` on a fresh
dispatcher leaves `len(y) = 1`, `len(yprime) = 0`. -/
theorem length_invariant_amended (d d3 : Dae) (y yprime : List ℚ)
    (t t1 : ℚ) (d2 d4 : Dae) (out : RunOutcome)
    (stepArg relaxArg : Bool)
    (hlen : y.length = yprime.length)
    (h : Dae.set_initial_value d y yprime t = .ok d2)
    (hout : out.y1.length = out.yprime1.length)
    (h2 : Dae.solve d3 t1 out stepArg relaxArg = .ok d4) :
    d2.y = y ∧ d2.yprime = yprime ∧ d2.y.length = d2.yprime.length ∧
    d4.y.length = d4.yprime.length := by
  have hset : d2.y = y ∧ d2.yprime = yprime := by
    unfold Dae.set_initial_value at h
    rcases hd0 : (if d.y.length = 0 then Dae.set_integrator d defaultParams
        else .ok d) with e | d1 <;> rw [hd0] at h <;> dsimp only at h
    · exact absurd h (by simp)
    · rcases hi : d1.integrator with _ | i <;> rw [hi] at h <;>
        dsimp only at h
      · exact absurd h (by simp)
      · rcases hr : Ddaspk.reset i y.length d1.jacPresent with e | i2 <;>
          rw [hr] at h <;> dsimp only at h
        · exact absurd h (by simp)
        · simp only [Except.ok.injEq] at h
          subst h
          exact ⟨rfl, rfl⟩
  have hsol : d4.y = out.y1 ∧ d4.yprime = out.yprime1 := by
    unfold Dae.solve at h2
    rcases hi : d3.integrator with _ | i <;> rw [hi] at h2
    · exact absurd h2 (by simp)
    · rcases hm : selectMeth Ddaspk.supports_step Ddaspk.supports_run_relax
          stepArg relaxArg with _ | _ | _ <;> rw [hm] at h2 <;>
        simp only [Except.ok.injEq] at h2
      · subst h2; simp [step_snd]
      · exact absurd h2 (by simp)
      · subst h2; simp [run_snd]
  refine ⟨hset.1, hset.2, ?_, ?_⟩
  · rw [hset.1, hset.2]; exact hlen
  · rw [hsol.1, hsol.2]; exact hout

theorem length_invariant_amended_witness :
    (([1, 2] : List ℚ).length = ([3, 4] : List ℚ).length ∧
     Dae.set_initial_value daeFresh [1, 2] [3, 4] 0 =
       .ok (match Dae.set_initial_value daeFresh [1, 2] [3, 4] 0 with
            | .ok d => d
            | .error _ => daeFresh) ∧
     outIstate2.y1.length = outIstate2.yprime1.length ∧
     Dae.solve daeReady 3 outIstate2 false false =
       .ok (match Dae.solve daeReady 3 outIstate2 false false with
            | .ok d => d
            | .error _ => daeReady)) ∧
    ((match Dae.set_initial_value daeFresh [1, 2] [3, 4] 0 with
      | .ok d => d
      | .error _ => daeFresh).y = [1, 2] ∧
     (match Dae.set_initial_value daeFresh [1, 2] [3, 4] 0 with
      | .ok d => d
      | .error _ => daeFresh).yprime = [3, 4] ∧
     (match Dae.set_initial_value daeFresh [1, 2] [3, 4] 0 with
      | .ok d => d
      | .error _ => daeFresh).y.length =
       (match Dae.set_initial_value daeFresh [1, 2] [3, 4] 0 with
        | .ok d => d
        | .error _ => daeFresh).yprime.length ∧
     (match Dae.solve daeReady 3 outIstate2 false false with
      | .ok d => d
      | .error _ => daeReady).y.length =
       (match Dae.solve daeReady 3 outIstate2 false false with
        | .ok d => d
        | .error _ => daeReady).yprime.length) :=
  ⟨⟨by decide, by decide, by decide, by decide⟩,
   length_invariant_amended daeFresh daeReady [1, 2] [3, 4] 0 3 _ _
     outIstate2 false false (by decide) (by decide) (by decide) (by decide)⟩

/-- C9: evaluating `reset` at the failing input — per-component
tolerance vectors of length 2 with problem size `n = 3`.  The call
raises nothing (it builds the arrays and flags `info[1] = 1` for
per-component tolerances), although the claim — and the code's own
error message, which demands "arrays of length n" — requires a
`ValueError` here.  `reset` only ever compares `len(atol)` with
`len(rtol)`, never with `n`. -/
theorem reset_accepts_wrong_tolerance_length :
    isOkE (Ddaspk.reset ddaspkTolLen2 3 false) = true ∧
    (okD (Ddaspk.reset ddaspkTolLen2 3 false) ddaspkTolLen2).info.getD 1 0 = 1 := by
  decide

/-- C10: mode `yprime0` (internal code 2) with `algebraic_var = None`
passes construction — the missing-role-vector guard fires only for
mode 1 (`yode0`), as the second conjunct shows — but every subsequent
`reset` fails with a `TypeError`, because `reset` slices
`algebraic_var` into `iwork` for both init-condition modes 1 and 2. -/
theorem yprime0_mode_reset_type_error (s : Ddaspk) (n : ℕ) (j : Bool)
    (h : ddaspk_init pYprime0 = .ok s) :
    s.compute_initcond = 2 ∧ s.algebraic_var = none ∧
    (∃ e, ddaspk_init pYode0 = .error e) ∧
    Ddaspk.reset s n j =
      .error "TypeError: NoneType algebraic-var vector is unsubscriptable" := by
  have hini : ddaspk_init pYprime0 = .ok (initOk pYprime0) := by decide
  rw [hini] at h
  simp only [Except.ok.injEq] at h
  subst h
  refine ⟨rfl, rfl,
    ⟨"Give integer array indicating which are the algebraic variables",
      by decide⟩, ?_⟩
  unfold Ddaspk.reset
  simp [initOk, pYprime0, tolMismatch, nonnegOf, ciOf]

theorem yprime0_mode_reset_type_error_witness :
    ddaspk_init pYprime0 = .ok (initOk pYprime0) ∧
    ((initOk pYprime0).compute_initcond = 2 ∧
     (initOk pYprime0).algebraic_var = none ∧
     (∃ e, ddaspk_init pYode0 = .error e) ∧
     Ddaspk.reset (initOk pYprime0) 1 false =
       .error "TypeError: NoneType algebraic-var vector is unsubscriptable") :=
  ⟨by decide, yprime0_mode_reset_type_error (initOk pYprime0) 1 false (by decide)⟩

/-- C4 counterexample: with `n = 3`, `lband = 0` and no user
Jacobian, raising `uband` from 0 to 1 shrinks the real work array
from 88 to 87 entries — the `2*(n/(lband+uband+1)+1)` term drops
faster than the `(2*lband+uband+1)*n` term grows — so the computed
lengths are not monotonically non-decreasing in the bandwidths. -/
theorem lrw_uband_monotonicity_counterexample :
    (okD (Ddaspk.reset ddaspkBand0 3 false) ddaspkBand0).rwork.length = 88 ∧
    (okD (Ddaspk.reset ddaspkBand1 3 false) ddaspkBand1).rwork.length = 87 := by
  decide

/-- C4 amended: the work-array lengths computed by `reset` are
monotonically non-decreasing in `n`, in `order`, and in `lband`; they
are monotone in `uband` for the dense branch and for the
banded-with-user-Jacobian branch, but not in general for the
banded-without-Jacobian branch (see the counterexample). -/
theorem work_length_monotonicity_amended
    (order ord2 n n2 ml ml2 mu mu2 nonneg ci : ℕ) (banded j : Bool)
    (h1 : n ≤ n2) (h2 : order ≤ ord2) (h3 : ml ≤ ml2) (h4 : mu ≤ mu2) :
    lrwOf order n banded j ml mu ≤ lrwOf order n2 banded j ml mu ∧
    lrwOf order n banded j ml mu ≤ lrwOf ord2 n banded j ml mu ∧
    lrwOf order n banded j ml mu ≤ lrwOf order n banded j ml2 mu ∧
    lrwOf order n banded true ml mu ≤ lrwOf order n banded true ml mu2 ∧
    lrwOf order n false j ml mu ≤ lrwOf order n false j ml mu2 ∧
    liwOf n nonneg ci ≤ liwOf n2 nonneg ci := by
  unfold lrwOf liwOf
  refine ⟨?_, ?_, ?_, ?_, ?_, ?_⟩
  · split_ifs <;> gcongr <;> omega
  · split_ifs <;> gcongr <;> omega
  · split_ifs with hb hj
    · omega
    · have hd : n / (ml + mu + 1) ≤ n := Nat.div_le_self _ _
      have hm : (2 * ml + mu + 1 + 2) * n ≤ (2 * ml2 + mu + 1) * n ∨ ml = ml2 := by
        rcases Nat.lt_or_ge ml ml2 with hlt | hge
        · exact Or.inl (Nat.mul_le_mul_right n (by omega))
        · exact Or.inr (le_antisymm (by omega) hge)
      rcases hm with hm | rfl
      · have hx : (2 * ml + mu + 1 + 2) * n = (2 * ml + mu + 1) * n + 2 * n := by
          ring
        have hz : 0 ≤ n / (ml2 + mu + 1) := Nat.zero_le _
        omega
      · omega
    · gcongr <;> omega
  · split_ifs with hb hj
    · exact le_rfl
    · exact absurd hj (by decide)
    · have hmul : (2 * ml + mu + 1) * n ≤ (2 * ml + mu2 + 1) * n := by
        apply Nat.mul_le_mul_right
        omega
      exact Nat.add_le_add_left hmul _
  · simp
  · split_ifs <;> omega

theorem work_length_monotonicity_amended_witness :
    (2 ≤ 5 ∧ 3 ≤ 4 ∧ 0 ≤ 1 ∧ 0 ≤ 2) ∧
    (lrwOf 3 2 true false 0 0 ≤ lrwOf 3 5 true false 0 0 ∧
     lrwOf 3 2 true false 0 0 ≤ lrwOf 4 2 true false 0 0 ∧
     lrwOf 3 2 true false 0 0 ≤ lrwOf 3 2 true false 1 0 ∧
     lrwOf 3 2 true true 0 0 ≤ lrwOf 3 2 true true 0 2 ∧
     lrwOf 3 2 false false 0 0 ≤ lrwOf 3 2 false false 0 2 ∧
     liwOf 2 1 1 ≤ liwOf 5 1 1) :=
  ⟨⟨by decide, by decide, by decide, by decide⟩,
   work_length_monotonicity_amended 3 4 2 5 0 1 0 2 1 1 true false
     (by decide) (by decide) (by decide) (by decide)⟩
